import Mathlib

/-!
Verification of the `dial_server` repository (src/main.rs): a DIAL/SSDP
discovery responder.  We shallowly embed the message construction,
serialization, broadcast sequencing, UDP discovery listener and TCP
descriptor server routing as executable Lean definitions translated from
the Rust source, and prove the frozen claims about them.
-/

namespace DialServer

/-! ### Character-level string primitives

Rust's `str::split` / `str::lines` are modelled over `List Char`
(`String.data`), so that everything reduces in the kernel. -/

/-- Split a character list at every occurrence of the character `sep`
(Rust `str::split(sep)` semantics: n separators yield n+1 pieces,
empty pieces included). -/
def splitChar (sep : Char) : List Char → List (List Char)
  | [] => [[]]
  | c :: rest =>
    match splitChar sep rest with
    | [] => [[]]
    | p :: ps => if c = sep then [] :: p :: ps else (c :: p) :: ps

/-- Split a character list at every (leftmost, non-overlapping) occurrence
of the two-character pattern `": "` (Rust `str::split(": ")`). -/
def splitColonSpace : List Char → List (List Char)
  | [] => [[]]
  | ':' :: ' ' :: rest => [] :: splitColonSpace rest
  | c :: rest =>
    match splitColonSpace rest with
    | [] => [[]]
    | p :: ps => (c :: p) :: ps

/-- Rust `str::lines` on the pieces produced by splitting at `'\n'`:
every piece but the last was `'\n'`-terminated and loses one trailing
`'\r'`; a final empty piece (text ended with `'\n'`) is dropped, and a
final nonempty piece is kept verbatim (its trailing `'\r'`, if any, had
no following `'\n'` and is not stripped). -/
def rustLinesAux : List (List Char) → List (List Char)
  | [] => []
  | [last] => if last = [] then [] else [last]
  | p :: rest =>
    (if p.getLast? = some '\r' then p.dropLast else p) :: rustLinesAux rest

/-- Rust `str::lines`, as a list of `String`s. -/
def rustLines (s : String) : List String :=
  (rustLinesAux (splitChar '\n' s.data)).map String.mk

/-- Rust `str::split(" ")`, as a list of `String`s. -/
def splitSpaces (s : String) : List String :=
  (splitChar ' ' s.data).map String.mk

/-- Rust `str::split(": ")`, as a list of `String`s. -/
def splitHeaderLine (s : String) : List String :=
  (splitColonSpace s.data).map String.mk

/-! ### Message builder (src/main.rs lines 16-44)

The Rust code builds messages with `http::Request::builder()`.  The
`http` crate's `HeaderName` type normalizes header names to ASCII
lowercase at construction (`Builder::header` goes through
`HeaderName::try_from`), stores entries in insertion order, and its
`Display` impl prints the stored (lowercase) name — which is what
`parse_request_to_string` interpolates with `format!("{}: {}\r\n", key,
value)`. -/

/-- ASCII lowercasing of one character, as done by the http crate's
header-name parsing. -/
def asciiLower (c : Char) : Char :=
  if 'A' ≤ c ∧ c ≤ 'Z' then Char.ofNat (c.toNat + 32) else c

/-- ASCII lowercasing of a string. -/
def lowerStr (s : String) : String := String.mk (s.data.map asciiLower)

/-- One header entry as stored by the http crate's header map: the name
is lowercased at construction, the value kept verbatim. -/
def hdr (k v : String) : String × String := (lowerStr k, v)

/-- Protocol versions distinguished by the match in
parse_request_to_string (src/main.rs lines 22-29). -/
inductive HttpVersion
  | http09 | http10 | http11 | http2 | http3
deriving DecidableEq

/-- Version strings produced by the match in parse_request_to_string. -/
def versionStr : HttpVersion → String
  | .http09 => "HTTP/0.9"
  | .http10 => "HTTP/1.0"
  | .http11 => "HTTP/1.1"
  | .http2 => "HTTP/2.0"
  | .http3 => "HTTP/3.0"

/-- The data of an http crate request builder that
parse_request_to_string consumes: method, uri, version and the ordered
header map (keys already lowercased, see hdr). -/
structure RequestBuilder where
  method : String
  uri : String
  version : HttpVersion
  headers : List (String × String)
deriving DecidableEq

/-- Serialization of the header map: one line per entry, in insertion
order (the for_each over the header map in src/main.rs lines 31-41). -/
def joinHeaderLines : List (String × String) → String
  | [] => ""
  | (k, v) :: rest => k ++ ": " ++ v ++ "\r\n" ++ joinHeaderLines rest

/-- Translation of parse_request_to_string (src/main.rs lines 16-44):
the method line, one line per header in insertion order, and the empty
terminating line, all CRLF-terminated. -/
def parse_request_to_string (r : RequestBuilder) : String :=
  r.method ++ " " ++ r.uri ++ " " ++ versionStr r.version ++ "\r\n"
    ++ joinHeaderLines r.headers ++ "\r\n"

/-- Constant ROOT_DEVICE_UUID (src/main.rs line 14). -/
def ROOT_DEVICE_UUID : String := "170ba466-59ac-4039-a457-0fab725b60ff"

/-- Value of every SERVER header in the source. -/
def SERVER_STRING : String := "Linus/Arch UPnP/1.0 Linus_Listener/1.0"

/-! ### The six NOTIFY request builders

Note the USN/NT formats: broadcast_root_device_to_network's messages 1
and 2 (and broadcast_device_to_network's message 1) build their uuid
strings with `format!("uuid::{}...", ROOT_DEVICE_UUID)` — a double
colon after "uuid" — while the Basic:1 and RenderingControl:1 messages
use `format!("uuid:{}::urn:...", ...)` with a single colon. -/

/-- Message 1 of broadcast_root_device_to_network (src/main.rs lines
64-88). -/
def rootRequest1 (url : String) : RequestBuilder :=
  { method := "NOTIFY", uri := "*", version := .http11,
    headers :=
      [hdr "HOST" "239.255.255.250:1900",
       hdr "cache-control" "max-age = 900",
       hdr "LOCATION" url,
       hdr "NT" "upnp:rootdevice",
       hdr "USN" ("uuid::" ++ ROOT_DEVICE_UUID ++ "::" ++ "upnp:rootdevice"),
       hdr "NTS" "ssdp:alive",
       hdr "SERVER" SERVER_STRING] }

/-- Message 2 of broadcast_root_device_to_network (src/main.rs lines
90-115); note USN is inserted after SERVER here. -/
def rootRequest2 (url : String) : RequestBuilder :=
  { method := "NOTIFY", uri := "*", version := .http11,
    headers :=
      [hdr "HOST" "239.255.255.250:1900",
       hdr "cache-control" "max-age = 900",
       hdr "LOCATION" url,
       hdr "NT" ("uuid::" ++ ROOT_DEVICE_UUID),
       hdr "NTS" "ssdp:alive",
       hdr "SERVER" SERVER_STRING,
       hdr "USN" ("uuid::" ++ ROOT_DEVICE_UUID)] }

/-- Message 3 of broadcast_root_device_to_network (src/main.rs lines
117-156). -/
def rootRequest3 (url : String) : RequestBuilder :=
  { method := "NOTIFY", uri := "*", version := .http11,
    headers :=
      [hdr "HOST" "239.255.255.250:1900",
       hdr "cache-control" "max-age = 900",
       hdr "LOCATION" url,
       hdr "NT" ("urn:schemas-upnp-org:device:" ++ "Basic" ++ ":" ++ "1"),
       hdr "NTS" "ssdp:alive",
       hdr "SERVER" SERVER_STRING,
       hdr "USN" ("uuid:" ++ ROOT_DEVICE_UUID ++ "::urn:schemas-upnp-org:device:"
         ++ "Basic" ++ ":" ++ "1")] }

/-- Message 1 of broadcast_device_to_network (src/main.rs lines
188-213). -/
def deviceRequest1 (url : String) : RequestBuilder :=
  { method := "NOTIFY", uri := "*", version := .http11,
    headers :=
      [hdr "HOST" "239.255.255.250:1900",
       hdr "cache-control" "max-age = 900",
       hdr "LOCATION" url,
       hdr "NT" ("uuid::" ++ ROOT_DEVICE_UUID),
       hdr "NTS" "ssdp:alive",
       hdr "SERVER" SERVER_STRING,
       hdr "USN" ("uuid::" ++ ROOT_DEVICE_UUID)] }

/-- Message 2 of broadcast_device_to_network (src/main.rs lines
225-253). -/
def deviceRequest2 (url : String) : RequestBuilder :=
  { method := "NOTIFY", uri := "*", version := .http11,
    headers :=
      [hdr "HOST" "239.255.255.250:1900",
       hdr "cache-control" "max-age = 900",
       hdr "LOCATION" url,
       hdr "NT" ("urn:schemas-upnp-org:device:" ++ "Basic" ++ ":" ++ "1"),
       hdr "NTS" "ssdp:alive",
       hdr "SERVER" SERVER_STRING,
       hdr "USN" ("uuid:" ++ ROOT_DEVICE_UUID ++ "::urn:schemas-upnp-org:device:"
         ++ "Basic" ++ ":" ++ "1")] }

/-- The single message of broadcast_service_type_to_network
(src/main.rs lines 286-318). -/
def serviceRequest1 (url : String) : RequestBuilder :=
  { method := "NOTIFY", uri := "*", version := .http11,
    headers :=
      [hdr "HOST" "239.255.255.250:1900",
       hdr "cache-control" "max-age = 900",
       hdr "LOCATION" url,
       hdr "NT" ("urn:schemas-upnp-org:service:" ++ "RenderingControl" ++ ":" ++ "1"),
       hdr "NTS" "ssdp:alive",
       hdr "SERVER" SERVER_STRING,
       hdr "USN" ("uuid:" ++ ROOT_DEVICE_UUID ++ "::urn:schemas-upnp-org:service:"
         ++ "RenderingControl" ++ ":" ++ "1")] }

/-! ### Advertisement broadcaster (src/main.rs lines 46-341)

Socket sends and pacing sleeps are modelled as an event trace. -/

/-- One observable action of the broadcaster: a datagram send over the
multicast channel, or a pacing sleep of the given milliseconds. -/
inductive NetEvent
  | send (msg : String)
  | sleepMs (ms : Nat)
deriving DecidableEq

/-- Event trace of broadcast_root_device_to_network (src/main.rs lines
158-167): send, sleep 100ms, send, sleep 100ms, send. -/
def broadcast_root_device_to_network (url : String) : List NetEvent :=
  [.send (parse_request_to_string (rootRequest1 url)), .sleepMs 100,
   .send (parse_request_to_string (rootRequest2 url)), .sleepMs 100,
   .send (parse_request_to_string (rootRequest3 url))]

/-- Event trace of broadcast_device_to_network (src/main.rs lines
255-261): send, sleep 100ms, send. -/
def broadcast_device_to_network (url : String) : List NetEvent :=
  [.send (parse_request_to_string (deviceRequest1 url)), .sleepMs 100,
   .send (parse_request_to_string (deviceRequest2 url))]

/-- Event trace of broadcast_service_type_to_network (src/main.rs lines
320-322): one send, no sleep. -/
def broadcast_service_type_to_network (url : String) : List NetEvent :=
  [.send (parse_request_to_string (serviceRequest1 url))]

/-- Event trace of broadcast_creation (src/main.rs lines 327-341): the
three sub-broadcasts run back to back, with no event between them. -/
def broadcast_creation (url : String) : List NetEvent :=
  broadcast_root_device_to_network url ++ broadcast_device_to_network url
    ++ broadcast_service_type_to_network url

/-- Datagrams sent in a trace, in order. -/
def sentMessages (events : List NetEvent) : List String :=
  events.filterMap fun e =>
    match e with
    | .send msg => some msg
    | .sleepMs _ => none

/-- Messages of the startup broadcast with a given root URL. -/
def broadcastMessages (url : String) : List String :=
  sentMessages (broadcast_creation url)

/-- The six request builders of the startup broadcast, in send order. -/
def broadcastRequests (url : String) : List RequestBuilder :=
  [rootRequest1 url, rootRequest2 url, rootRequest3 url,
   deviceRequest1 url, deviceRequest2 url, serviceRequest1 url]

/-! ### Discovery listener (src/main.rs lines 491-535)

On each datagram that decoded as UTF-8, the loop scans every line of
the text for exact equality with the DIAL ST line and, on a hit, sends
one response built from the hard-coded local IP back to the source
address. -/

/-- Constant local_ip (src/main.rs line 365). -/
def local_ip : String := "192.168.178.9"

/-- The literal line the listener compares every line of the datagram
against (src/main.rs line 508). -/
def dialSTLine : String := "ST: urn:dial-multiscreen-org:service:dial:1"

/-- Translation of the header_found scan (src/main.rs lines 506-511):
true iff some line of the decoded datagram equals dialSTLine exactly. -/
def header_found (msg : String) : Bool :=
  (rustLines msg).any fun line => line = dialSTLine

/-- Search response built by the listener (src/main.rs lines 517-524).
The Rust string literal uses bare newlines and ends after the USN line
with a single newline: no carriage returns and no blank terminating
line. -/
def searchResponse (ip : String) : String :=
  "HTTP/1.1 200 OK\nLOCATION: http://" ++ ip
    ++ ":8081/upnp_device_descriptor.xml\nST: urn:dial-multiscreen-org:service:dial:1\nUSN: testing-laptop\n"

/-- Unicast responses the listener sends to the datagram's source for
one decoded datagram (src/main.rs lines 505-534): exactly one
searchResponse when header_found, none otherwise. -/
def udpResponses (ip msg : String) : List String :=
  if header_found msg then [searchResponse ip] else []

/-! ### Descriptor server (src/main.rs lines 368-485) -/

/-- Response literal for GET / (src/main.rs lines 439-446); the Rust
byte-string literal spans source lines, so its line endings are bare
newlines. -/
def htmlResponse : String :=
  "HTTP/1.1 200 OK\nConnection: Keep-Alive\nAccess-Control-Allow-Origin: *\nContent-Type: text/html; charset=utf-8\n\n<html>\n<body>TEST</body>\n</html>"

/-- Response for GET /upnp_device_descriptor.xml (src/main.rs lines
457-463), given the contents of the desc.xml asset. -/
def xmlResponse (descAsset : String) : String :=
  "HTTP/1.1 200 OK\ncontent-type: application/xml\n\n" ++ descAsset

/-- Response literal for every other route (src/main.rs line 466). -/
def notFoundResponse : String := "HTTP/1.1 404 Not Found"

/-- Routing if-chain of the descriptor server (src/main.rs lines
438-467), a function of the parsed path and method and the descriptor
asset contents. -/
def route (descAsset method path : String) : String :=
  if path = "/" ∧ method = "GET" then htmlResponse
  else if path = "/upnp_device_descriptor.xml" ∧ method = "GET" then
    xmlResponse descAsset
  else notFoundResponse

/-- Header-line parsing shared by the descriptor server (src/main.rs
lines 422-433) and, per spec section 4.3, the discovery listener: each
line after the first that splits at `": "` into exactly two pieces is
inserted into the mapping (a later duplicate key overwrites, as
HashMap::insert does); all other lines are skipped. -/
def insertHeader (m : List (String × String)) (k v : String) :
    List (String × String) :=
  if m.any fun kv => kv.1 = k then
    m.map fun kv => if kv.1 = k then (k, v) else kv
  else m ++ [(k, v)]

/-- Fold of insertHeader over a list of header lines. -/
def parseHeaderLines (ls : List String) : List (String × String) :=
  ls.foldl
    (fun m line =>
      match splitHeaderLine line with
      | [k, v] => insertHeader m k v
      | _ => m)
    []

/-- Lookup in a parsed header mapping. -/
def headerLookup (m : List (String × String)) (k : String) :
    Option String :=
  (m.find? fun kv => kv.1 = k).map Prod.snd

/-- Outcome of one descriptor-server read: a response written back, an
early return on a request with no first line, or a panic of the
connection task (an out-of-bounds index into the first line's words). -/
inductive StreamOutcome
  | response (bytes : String)
  | invalidRequest
  | panic
deriving DecidableEq

/-- Translation of the per-connection request handling (src/main.rs
lines 404-467).  The first line is split at single spaces and
words[0], words[1], words[2] are indexed unconditionally, so fewer
than three pieces is an out-of-bounds panic; header lines are parsed
(the Rust code uses them only for logging) and the response is chosen
by route. -/
def handleStream (descAsset text : String) : StreamOutcome :=
  match rustLines text with
  | [] => .invalidRequest
  | firstLine :: rest =>
    match splitSpaces firstLine with
    | method :: path :: _protocol :: _ =>
      let _headers := parseHeaderLines rest
      .response (route descAsset method path)
    | _ => .panic

/-! ### Spec-modelled discovery parsing

The spec (section 4.3) describes the listener as parsing the first
line into three whitespace-separated tokens and the remaining lines as
a Key-Value header mapping, then deciding on the mapping's ST entry.
The Rust listener does none of this; these definitions follow the
spec's words so that the claims stated in those terms can be compared
with the code's behaviour. -/

/-- Whitespace-separated tokens of the datagram's first line, per the
spec's step 2 (empty pieces dropped, so repeated spaces do not create
tokens). -/
def specFirstLineTokens (msg : String) : List String :=
  match rustLines msg with
  | [] => []
  | firstLine :: _ => (splitSpaces firstLine).filter fun w => w ≠ ""

/-- Header mapping of a datagram per the spec's step 3: every line
after the first parsed as a Key-Value pair where possible. -/
def specHeaderMap (msg : String) : List (String × String) :=
  match rustLines msg with
  | [] => []
  | _ :: rest => parseHeaderLines rest

/-- Value of the ST entry of the spec-modelled header mapping. -/
def specST (msg : String) : Option String :=
  headerLookup (specHeaderMap msg) "ST"

/-! ### Derived observations used by the claims -/

/-- Constant root_device_url passed to broadcast_creation at startup
(src/main.rs line 487). -/
def root_device_url : String := "http://" ++ local_ip ++ "/"

/-- Check of the HeaderMap contains_key operation: the queried name is
lowercased (HeaderName construction) before comparison with the stored
keys. -/
def containsHeaderKey (r : RequestBuilder) (k : String) : Bool :=
  r.headers.any fun kv => kv.1 = lowerStr k

/-- Pacing property claimed by the spec for the broadcast trace: no
send, except a last event, without a following sleep, every such sleep
lasting 100 ms; two adjacent sends violate it. -/
def pacedSends : List NetEvent → Bool
  | [] => true
  | [NetEvent.send _] => true
  | NetEvent.send _ :: NetEvent.sleepMs n :: rest => n = 100 && pacedSends rest
  | NetEvent.sleepMs _ :: rest => pacedSends rest
  | NetEvent.send _ :: NetEvent.send _ :: _ => false

/-- Characters of a response before its first newline: its status
line. -/
def takeUntilNL : List Char → List Char
  | [] => []
  | c :: cs => if c = '\n' then [] else c :: takeUntilNL cs

/-- Split a response at its first blank line (LF conventions, matching
the source's stream responses): everything before the first
double-newline, and the body after it (none when there is no blank
line). -/
def splitAtBlank : List Char → List Char × Option (List Char)
  | [] => ([], none)
  | c :: cs =>
    if c = '\n' ∧ cs.head? = some '\n' then ([], some cs.tail)
    else
      let r := splitAtBlank cs
      (c :: r.1, r.2)

/-- Text with no adjacent double newline and no trailing newline: a
well-formed header section right before a blank line. -/
def cleanBeforeBlank : List Char → Bool
  | [] => true
  | [c] => c ≠ '\n'
  | c :: c2 :: cs => !(c = '\n' && c2 = '\n') && cleanBeforeBlank (c2 :: cs)

/-- Status line of a response. -/
def respFirstLine (r : String) : String := String.mk (takeUntilNL r.data)

/-- Part of a response before its first blank line. -/
def respHeaderSection (r : String) : String :=
  String.mk (splitAtBlank r.data).1

/-- Header mapping of a response: every line of the header section
after the status line, parsed with the same Key-Value rule as inbound
requests. -/
def respHeaders (r : String) : List (String × String) :=
  match rustLines (respHeaderSection r) with
  | [] => []
  | _ :: rest => parseHeaderLines rest

/-- Value of the content-type header of a response, under
case-insensitive header-name comparison. -/
def respContentType (r : String) : Option String :=
  headerLookup ((respHeaders r).map fun kv => (lowerStr kv.1, kv.2))
    "content-type"

/-- Body of a response: everything after its first blank line. -/
def respBody (r : String) : Option String :=
  ((splitAtBlank r.data).2).map String.mk

/-- Media type of a content-type value: the part before any parameter
(before the first semicolon). -/
def mediaType (v : String) : String :=
  String.mk (v.data.takeWhile fun c => c ≠ ';')

end DialServer

namespace DialServer

set_option maxRecDepth 200000

/-! ### Sanity checks of the primitives against Rust behaviour -/

example : rustLines "a\r\nb\n" = ["a", "b"] := by decide
example : rustLines "a\nb" = ["a", "b"] := by decide
example : rustLines "" = [] := by decide
example : rustLines "\n" = [""] := by decide
example : rustLines "abc\r" = ["abc\r"] := by decide
example : rustLines "x\n\n" = ["x", ""] := by decide
example : splitSpaces "GET / HTTP/1.1" = ["GET", "/", "HTTP/1.1"] := by decide
example : splitSpaces "" = [""] := by decide
example : splitHeaderLine "ST: urn:dial-multiscreen-org:service:dial:1" =
    ["ST", "urn:dial-multiscreen-org:service:dial:1"] := by decide
example : splitHeaderLine "a: b: c" = ["a", "b", "c"] := by decide
example : lowerStr "CACHE-CONTROL" = "cache-control" := by decide
example : mediaType "text/html; charset=utf-8" = "text/html" := by decide

/-! ### Helper lemmas about the response-splitting functions -/

/-- Helper: taking the first line of text that continues past a first
newline yields the part before that newline. -/
theorem takeUntilNL_append (l z : List Char) (h : '\n' ∉ l) :
    takeUntilNL (l ++ '\n' :: z) = l := by
  induction l with
  | nil => simp [takeUntilNL]
  | cons c cs ih =>
    have hc : ¬(c = '\n') := by
      intro hceq
      exact h (by rw [hceq]; exact List.mem_cons_self _ _)
    have hcs : '\n' ∉ cs := fun hm => h (List.mem_cons_of_mem _ hm)
    simp [takeUntilNL, hc, ih hcs]

/-- Helper: splitting at the first blank line, when the text is a clean
header part followed by a blank line and a body, recovers both. -/
theorem splitAtBlank_append (l z : List Char)
    (h : cleanBeforeBlank l = true) :
    splitAtBlank (l ++ '\n' :: '\n' :: z) = (l, some z) := by
  induction l with
  | nil => simp [splitAtBlank]
  | cons c cs ih =>
    cases cs with
    | nil =>
      have hc : ¬(c = '\n') := by simpa [cleanBeforeBlank] using h
      simp only [List.cons_append, List.nil_append, splitAtBlank,
        List.head?_cons]
      rw [if_neg (by simp [hc]), if_pos (by simp)]
      simp
    | cons c2 cs' =>
      have h2 : cleanBeforeBlank (c2 :: cs') = true := by
        have := h
        simp [cleanBeforeBlank] at this
        exact this.2
      have h1 : ¬(c = '\n' ∧ c2 = '\n') := by
        have := h
        simp [cleanBeforeBlank] at this
        rcases this.1 with h' | h'
        · exact fun hc => h' hc.1
        · exact fun hc => h' hc.2
      have hin := ih h2
      simp only [splitAtBlank] at hin
      simp only [List.cons_append, splitAtBlank, List.head?_cons]
      rw [if_neg (by simpa using h1), hin]

/-- Helper: status line, content-type and body of the descriptor
response, for an arbitrary asset string. -/
theorem xml_extract (a : String) :
    respFirstLine (xmlResponse a) = "HTTP/1.1 200 OK" ∧
    respContentType (xmlResponse a) = some "application/xml" ∧
    respBody (xmlResponse a) = some a := by
  have hpre : ("HTTP/1.1 200 OK\ncontent-type: application/xml\n\n" : String).data =
      "HTTP/1.1 200 OK\ncontent-type: application/xml".data ++ ['\n', '\n'] := by
    decide
  have hpre2 : ("HTTP/1.1 200 OK\ncontent-type: application/xml\n\n" : String).data =
      "HTTP/1.1 200 OK".data ++ '\n' :: "content-type: application/xml\n\n".data := by
    decide
  have hdata : (xmlResponse a).data =
      "HTTP/1.1 200 OK\ncontent-type: application/xml".data ++ '\n' :: '\n' :: a.data := by
    show (("HTTP/1.1 200 OK\ncontent-type: application/xml\n\n" : String) ++ a).data = _
    rw [String.data_append, hpre, List.append_assoc]
    rfl
  have hdata2 : (xmlResponse a).data =
      "HTTP/1.1 200 OK".data ++ '\n' :: ("content-type: application/xml\n\n".data ++ a.data) := by
    show (("HTTP/1.1 200 OK\ncontent-type: application/xml\n\n" : String) ++ a).data = _
    rw [String.data_append, hpre2, List.append_assoc]
    rfl
  have hsplit := splitAtBlank_append
    "HTTP/1.1 200 OK\ncontent-type: application/xml".data a.data (by decide)
  refine ⟨?_, ?_, ?_⟩
  · rw [respFirstLine, hdata2, takeUntilNL_append _ _ (by decide)]
  · have hsec : (splitAtBlank (xmlResponse a).data).1 =
        "HTTP/1.1 200 OK\ncontent-type: application/xml".data := by
      rw [hdata, hsplit]
    rw [respContentType, respHeaders, respHeaderSection, hsec]
    decide
  · have hbody : (splitAtBlank (xmlResponse a).data).2 = some a.data := by
      rw [hdata, hsplit]
    rw [respBody, hbody]
    rfl

/-! ### The claims -/

/-- C1, counterexample: a datagram consisting of the single line
"ST: urn:dial-multiscreen-org:service:dial:1" has no ST entry in its
parsed header mapping (the first line is the request line, not a
header line, and there are no further lines), so the claim demands
zero responses — yet the listener sends one response for it. -/
theorem C1_counterexample :
    specST "ST: urn:dial-multiscreen-org:service:dial:1" = none ∧
    (udpResponses local_ip
      "ST: urn:dial-multiscreen-org:service:dial:1").length = 1 := by
  decide

/-- C1, amended: the listener sends exactly one unicast response to
the datagram's source iff some complete line of the decoded datagram
is byte-for-byte the line
"ST: urn:dial-multiscreen-org:service:dial:1", and zero responses
otherwise; the parsed header mapping plays no role in the decision. -/
theorem C1_listener_response_count (ip msg : String) :
    (udpResponses ip msg).length =
      if dialSTLine ∈ rustLines msg then 1 else 0 := by
  by_cases hm : dialSTLine ∈ rustLines msg <;>
    simp [udpResponses, header_found, List.any_eq_true, hm]

/-- C2, counterexample: the startup broadcast with the root URL the
program uses sends six messages, not three, and the USN fields of its
first two advertisements carry a double colon after "uuid", not the
claimed "uuid:<device-id>" shape. -/
theorem C2_counterexample :
    (broadcastMessages root_device_url).length = 6 ∧
    headerLookup (rootRequest1 root_device_url).headers "usn" =
      some "uuid::170ba466-59ac-4039-a457-0fab725b60ff::upnp:rootdevice" ∧
    headerLookup (rootRequest2 root_device_url).headers "usn" =
      some "uuid::170ba466-59ac-4039-a457-0fab725b60ff" := by
  decide

/-- C2, amended: the startup broadcast sends exactly six NOTIFY
advertisements, in order: (1) root-device advertisement with
NT=upnp:rootdevice and USN=uuid::<device-id>::upnp:rootdevice (double
colon after uuid); (2) device advertisement with
NT=USN=uuid::<device-id> (double colon); (3) device-type advertisement
with NT=urn:schemas-upnp-org:device:Basic:1 and
USN=uuid:<device-id>::urn:schemas-upnp-org:device:Basic:1; (4) a
repeat of (2); (5) a repeat of (3); (6) a service advertisement with
NT=urn:schemas-upnp-org:service:RenderingControl:1 and the matching
USN.  All six carry NTS=ssdp:alive and LOCATION=<root URL>. -/
theorem C2_broadcast_structure (url : String) :
    broadcastMessages url =
      (broadcastRequests url).map parse_request_to_string ∧
    (broadcastMessages url).length = 6 ∧
    ((broadcastRequests url).map fun r => r.method) =
      ["NOTIFY", "NOTIFY", "NOTIFY", "NOTIFY", "NOTIFY", "NOTIFY"] ∧
    ((broadcastRequests url).map fun r => headerLookup r.headers "nt") =
      [some "upnp:rootdevice",
       some "uuid::170ba466-59ac-4039-a457-0fab725b60ff",
       some "urn:schemas-upnp-org:device:Basic:1",
       some "uuid::170ba466-59ac-4039-a457-0fab725b60ff",
       some "urn:schemas-upnp-org:device:Basic:1",
       some "urn:schemas-upnp-org:service:RenderingControl:1"] ∧
    ((broadcastRequests url).map fun r => headerLookup r.headers "usn") =
      [some "uuid::170ba466-59ac-4039-a457-0fab725b60ff::upnp:rootdevice",
       some "uuid::170ba466-59ac-4039-a457-0fab725b60ff",
       some "uuid:170ba466-59ac-4039-a457-0fab725b60ff::urn:schemas-upnp-org:device:Basic:1",
       some "uuid::170ba466-59ac-4039-a457-0fab725b60ff",
       some "uuid:170ba466-59ac-4039-a457-0fab725b60ff::urn:schemas-upnp-org:device:Basic:1",
       some "uuid:170ba466-59ac-4039-a457-0fab725b60ff::urn:schemas-upnp-org:service:RenderingControl:1"] ∧
    ((broadcastRequests url).map fun r => headerLookup r.headers "nts") =
      List.replicate 6 (some "ssdp:alive") ∧
    ((broadcastRequests url).map fun r => headerLookup r.headers "location") =
      List.replicate 6 (some url) :=
  ⟨rfl, rfl, rfl, rfl, rfl, rfl, rfl⟩

/-- C3: every advertisement of the startup broadcast serializes to the
method line "NOTIFY * HTTP/1.1" followed by one Key-Value line per
header in insertion order and the empty terminating line, all
CRLF-terminated, and its header mapping holds exactly the seven
mandated keys (header-name comparison is the header map's
case-insensitive one: names are lowercased on construction and on
lookup). -/
theorem C3_advertisement_framing (url : String) :
    ∀ r ∈ broadcastRequests url,
      parse_request_to_string r =
        "NOTIFY" ++ " " ++ "*" ++ " " ++ "HTTP/1.1" ++ "\r\n"
          ++ joinHeaderLines r.headers ++ "\r\n" ∧
      r.headers.length = 7 ∧
      (["HOST", "CACHE-CONTROL", "LOCATION", "NT", "NTS", "SERVER",
          "USN"].all fun k => containsHeaderKey r k) = true ∧
      (r.headers.map Prod.fst).Nodup := by
  intro r hr
  simp only [broadcastRequests, List.mem_cons, List.not_mem_nil,
    or_false] at hr
  rcases hr with rfl | rfl | rfl | rfl | rfl | rfl
  · refine ⟨rfl, rfl, rfl, ?_⟩
    show (["host", "cache-control", "location", "nt", "usn", "nts",
      "server"] : List String).Nodup
    decide
  · refine ⟨rfl, rfl, rfl, ?_⟩
    show (["host", "cache-control", "location", "nt", "nts", "server",
      "usn"] : List String).Nodup
    decide
  · refine ⟨rfl, rfl, rfl, ?_⟩
    show (["host", "cache-control", "location", "nt", "nts", "server",
      "usn"] : List String).Nodup
    decide
  · refine ⟨rfl, rfl, rfl, ?_⟩
    show (["host", "cache-control", "location", "nt", "nts", "server",
      "usn"] : List String).Nodup
    decide
  · refine ⟨rfl, rfl, rfl, ?_⟩
    show (["host", "cache-control", "location", "nt", "nts", "server",
      "usn"] : List String).Nodup
    decide
  · refine ⟨rfl, rfl, rfl, ?_⟩
    show (["host", "cache-control", "location", "nt", "nts", "server",
      "usn"] : List String).Nodup
    decide

/-- C3, witness: the framing equality instantiated at the root-device
advertisement for a concrete URL. -/
theorem C3_witness :
    parse_request_to_string (rootRequest1 "u") =
      "NOTIFY" ++ " " ++ "*" ++ " " ++ "HTTP/1.1" ++ "\r\n"
        ++ joinHeaderLines (rootRequest1 "u").headers ++ "\r\n" ∧
    (rootRequest1 "u").headers.length = 7 :=
  ⟨(C3_advertisement_framing "u" (rootRequest1 "u") (List.Mem.head _)).1,
   (C3_advertisement_framing "u" (rootRequest1 "u") (List.Mem.head _)).2.1⟩

/-- C4: for every stream request whose first line parses into method,
path and version, the response is chosen by the routing chain: GET /
yields the 200 OK text/html landing page, GET
/upnp_device_descriptor.xml yields 200 OK with content-type
application/xml and the descriptor asset as body, and every other
method/path combination yields 404 Not Found. -/
theorem C4_descriptor_routing
    (descAsset text firstLine method path protocol : String)
    (rest more : List String)
    (h1 : rustLines text = firstLine :: rest)
    (h2 : splitSpaces firstLine = method :: path :: protocol :: more) :
    handleStream descAsset text =
      StreamOutcome.response (route descAsset method path) ∧
    (method = "GET" ∧ path = "/" →
      route descAsset method path = htmlResponse ∧
      respFirstLine htmlResponse = "HTTP/1.1 200 OK" ∧
      (respContentType htmlResponse).map mediaType = some "text/html") ∧
    (method = "GET" ∧ path = "/upnp_device_descriptor.xml" →
      route descAsset method path = xmlResponse descAsset ∧
      respFirstLine (xmlResponse descAsset) = "HTTP/1.1 200 OK" ∧
      respContentType (xmlResponse descAsset) = some "application/xml" ∧
      respBody (xmlResponse descAsset) = some descAsset) ∧
    (¬(method = "GET" ∧
        (path = "/" ∨ path = "/upnp_device_descriptor.xml")) →
      route descAsset method path = notFoundResponse ∧
      respFirstLine notFoundResponse = "HTTP/1.1 404 Not Found") := by
  refine ⟨?_, ?_, ?_, ?_⟩
  · simp only [handleStream, h1, h2]
  · rintro ⟨hm, hp⟩
    exact ⟨by simp [route, hm, hp], by decide, by decide⟩
  · rintro ⟨hm, hp⟩
    have hx := xml_extract descAsset
    refine ⟨?_, hx.1, hx.2.1, hx.2.2⟩
    rw [route, if_neg (by simp [hp]), if_pos ⟨hp, hm⟩]
  · intro hno
    refine ⟨?_, by decide⟩
    rw [route, if_neg (fun hc => hno ⟨hc.2, Or.inl hc.1⟩),
      if_neg (fun hc => hno ⟨hc.2, Or.inr hc.1⟩)]

/-- C4, witness: the routing theorem applied to the concrete request
"GET / HTTP/1.1" with both parsing hypotheses discharged. -/
theorem C4_witness :
    handleStream "desc" "GET / HTTP/1.1\r\n\r\n" =
      StreamOutcome.response (route "desc" "GET" "/") ∧
    route "desc" "GET" "/" = htmlResponse :=
  ⟨(C4_descriptor_routing "desc" "GET / HTTP/1.1\r\n\r\n" "GET / HTTP/1.1"
      "GET" "/" "HTTP/1.1" [""] [] (by decide) (by decide)).1,
   ((C4_descriptor_routing "desc" "GET / HTTP/1.1\r\n\r\n" "GET / HTTP/1.1"
      "GET" "/" "HTTP/1.1" [""] [] (by decide) (by decide)).2.1
     ⟨rfl, rfl⟩).1⟩

/-- C5, counterexample: the search response the listener emits
contains newlines but not a single carriage return, so its lines are
not CRLF-terminated, and no empty line terminates its headers. -/
theorem C5_counterexample :
    '\r' ∉ (searchResponse local_ip).data ∧
    '\n' ∈ (searchResponse local_ip).data ∧
    "" ∉ rustLines (searchResponse local_ip) := by
  decide

/-- C5, amended: the emitted search response consists of
LF-terminated lines — the status line "HTTP/1.1 200 OK", a LOCATION
header giving the descriptor endpoint URL, an ST header echoing the
DIAL service target, and a USN header — with no carriage returns and
no blank line terminating the headers. -/
theorem C5_search_response_format :
    rustLines (searchResponse local_ip) =
      ["HTTP/1.1 200 OK",
       "LOCATION: http://192.168.178.9:8081/upnp_device_descriptor.xml",
       "ST: urn:dial-multiscreen-org:service:dial:1",
       "USN: testing-laptop"] ∧
    '\r' ∉ (searchResponse local_ip).data ∧
    "" ∉ rustLines (searchResponse local_ip) := by
  decide

/-- C6, counterexample: the full startup broadcast is not paced — its
trace, from the fifth event on, is send, send, sleep, send, send: the
third and fourth sends are adjacent, as are the fifth and sixth. -/
theorem C6_counterexample :
    pacedSends (broadcast_creation root_device_url) = false ∧
    (broadcast_creation root_device_url).drop 4 =
      [NetEvent.send (parse_request_to_string (rootRequest3 root_device_url)),
       NetEvent.send (parse_request_to_string (deviceRequest1 root_device_url)),
       NetEvent.sleepMs 100,
       NetEvent.send (parse_request_to_string (deviceRequest2 root_device_url)),
       NetEvent.send (parse_request_to_string (serviceRequest1 root_device_url))] :=
  ⟨rfl, rfl⟩

/-- C6, amended: within each of the three broadcast subroutines every
send except the last is followed by a 100 ms sleep before the next
send, but the startup broadcast runs the subroutines back to back, so
the sequence as a whole has adjacent sends with no delay between them
(after the third and after the fifth message). -/
theorem C6_pacing_structure (url : String) :
    pacedSends (broadcast_root_device_to_network url) = true ∧
    pacedSends (broadcast_device_to_network url) = true ∧
    pacedSends (broadcast_service_type_to_network url) = true ∧
    broadcast_creation url =
      broadcast_root_device_to_network url ++ broadcast_device_to_network url
        ++ broadcast_service_type_to_network url ∧
    pacedSends (broadcast_creation url) = false :=
  ⟨rfl, rfl, rfl, rfl, rfl⟩

/-- C7, counterexample: the serialized root-device advertisement
contains the line "host: 239.255.255.250:1900" and not the claimed
upper-case line "HOST: 239.255.255.250:1900": header keys are not
case-preserving on the wire. -/
theorem C7_counterexample :
    "host: 239.255.255.250:1900" ∈
      rustLines (parse_request_to_string (rootRequest1 root_device_url)) ∧
    "HOST: 239.255.255.250:1900" ∉
      rustLines (parse_request_to_string (rootRequest1 root_device_url)) := by
  decide

/-- C7, amended: the header map normalizes keys to ASCII lowercase at
construction, so every stored key of every emitted advertisement is
lowercase (the serialized line is "host: 239.255.255.250:1900"), and a
key is found only under its lowercased name. -/
theorem C7_keys_lowercased (url : String) :
    ∀ r ∈ broadcastRequests url,
      ((r.headers.map Prod.fst).all fun k => k = lowerStr k) = true ∧
      headerLookup r.headers (lowerStr "HOST") =
        some "239.255.255.250:1900" ∧
      headerLookup r.headers "HOST" = none := by
  intro r hr
  simp only [broadcastRequests, List.mem_cons, List.not_mem_nil,
    or_false] at hr
  rcases hr with rfl | rfl | rfl | rfl | rfl | rfl <;> exact ⟨rfl, rfl, rfl⟩

/-- C7, witness: the lowercasing facts instantiated at the root-device
advertisement for a concrete URL. -/
theorem C7_witness :
    (((rootRequest1 "u").headers.map Prod.fst).all
      fun k => k = lowerStr k) = true ∧
    headerLookup (rootRequest1 "u").headers "HOST" = none :=
  ⟨(C7_keys_lowercased "u" (rootRequest1 "u") (List.Mem.head _)).1,
   (C7_keys_lowercased "u" (rootRequest1 "u") (List.Mem.head _)).2.2⟩

/-- C8, counterexample: a datagram whose first line has only two
whitespace-separated tokens is not discarded: the listener answers it
because that line is exactly the DIAL ST line. -/
theorem C8_counterexample :
    (specFirstLineTokens
      "ST: urn:dial-multiscreen-org:service:dial:1").length = 2 ∧
    (udpResponses local_ip
      "ST: urn:dial-multiscreen-org:service:dial:1").length = 1 := by
  decide

/-- C8, amended: the listener performs no token-count check on the
first line; for a datagram whose first line has fewer than three
whitespace-separated tokens it still sends exactly one response when
some line equals the DIAL ST line and zero otherwise. -/
theorem C8_no_first_line_check (ip msg : String)
    (h : (specFirstLineTokens msg).length < 3) :
    (udpResponses ip msg).length =
      if dialSTLine ∈ rustLines msg then 1 else 0 := by
  by_cases hm : dialSTLine ∈ rustLines msg <;>
    simp [udpResponses, header_found, List.any_eq_true, hm]

/-- C8, witness: the amended statement applied to the two-token
datagram of the counterexample. -/
theorem C8_witness :
    (specFirstLineTokens
      "ST: urn:dial-multiscreen-org:service:dial:1").length < 3 ∧
    (udpResponses local_ip
        "ST: urn:dial-multiscreen-org:service:dial:1").length =
      (if dialSTLine ∈
          rustLines "ST: urn:dial-multiscreen-org:service:dial:1"
        then 1 else 0) :=
  ⟨by decide, C8_no_first_line_check local_ip _ (by decide)⟩

/-- C9: a stream request whose first line has fewer than three
space-separated tokens is not discarded with a diagnostic — the
handler indexes the token vector out of bounds and the connection task
panics. -/
theorem C9_short_request_line_panics (descAsset : String) :
    (splitSpaces "GET").length < 3 ∧
    handleStream descAsset "GET\r\n\r\n" = StreamOutcome.panic :=
  ⟨by decide, rfl⟩

/-- C10: the listener's decision depends only on whether some complete
line of the decoded datagram is byte-for-byte equal to
"ST: urn:dial-multiscreen-org:service:dial:1"; a datagram carrying
that exact line anywhere — its first line included — is answered,
while a lowercase key or missing space after the colon is not. -/
theorem C10_exact_line_matching (ip msg : String) :
    (udpResponses ip msg ≠ [] ↔ dialSTLine ∈ rustLines msg) ∧
    udpResponses ip
      "ST: urn:dial-multiscreen-org:service:dial:1\r\nHOST: 239.255.255.250:1900\r\n\r\n" ≠ [] ∧
    udpResponses ip
      "M-SEARCH * HTTP/1.1\r\nST: urn:dial-multiscreen-org:service:dial:1\r\n\r\n" ≠ [] ∧
    udpResponses ip
      "M-SEARCH * HTTP/1.1\r\nst: urn:dial-multiscreen-org:service:dial:1\r\n\r\n" = [] ∧
    udpResponses ip
      "M-SEARCH * HTTP/1.1\r\nST:urn:dial-multiscreen-org:service:dial:1\r\n\r\n" = [] := by
  refine ⟨?_, ?_, ?_, ?_, ?_⟩
  · simp [udpResponses, header_found, List.any_eq_true]
  · simp [udpResponses,
      show header_found
        "ST: urn:dial-multiscreen-org:service:dial:1\r\nHOST: 239.255.255.250:1900\r\n\r\n" = true
      from by decide]
  · simp [udpResponses,
      show header_found
        "M-SEARCH * HTTP/1.1\r\nST: urn:dial-multiscreen-org:service:dial:1\r\n\r\n" = true
      from by decide]
  · simp [udpResponses,
      show header_found
        "M-SEARCH * HTTP/1.1\r\nst: urn:dial-multiscreen-org:service:dial:1\r\n\r\n" = false
      from by decide]
  · simp [udpResponses,
      show header_found
        "M-SEARCH * HTTP/1.1\r\nST:urn:dial-multiscreen-org:service:dial:1\r\n\r\n" = false
      from by decide]

end DialServer
